import Mathlib

/-!
# Verification of the Stripe-Checker credential-audit tool

Shallow embedding of `stripeChecker.py`: the probe library
(`test_list_charges`, `test_publishable_key`, `test_custom_endpoint`),
the brute-force scanner (`brute_force_customers`), the mode dispatcher
(`main`), and the two reporter renderings (`save_results_to_file` rows
and `display_results` rows), together with theorems settling the spec
claims about them.

The HTTP transport is external: each probe is embedded as a pure
function of the transport's answer (an exception message, or a response
carrying a status code, raw text, and the result of attempting to parse
the body as JSON), plus a separate definition of the request it issues.
-/

namespace StripeChecker

/-- A Python value as it appears in this program: JSON-decoded response
bodies, error payloads, and report entries. `pyNone` is Python `None`. -/
inductive PyVal where
  | pyNone : PyVal
  | bool (b : Bool) : PyVal
  | int (n : Int) : PyVal
  | str (s : String) : PyVal
  | list (xs : List PyVal) : PyVal
  | dict (kvs : List (String × PyVal)) : PyVal

/-- Python truthiness of a value (`bool(v)`): `None`, `False`, `0`, `""`,
empty list and empty dict are falsy. -/
def truthyVal : PyVal → Bool
  | PyVal.pyNone => false
  | PyVal.bool b => b
  | PyVal.int n => !(n == 0)
  | PyVal.str s => !(s == "")
  | PyVal.list xs => !xs.isEmpty
  | PyVal.dict kvs => !kvs.isEmpty

/-- Truthiness of `d.get(key)` given the optional value at a key:
an absent key yields `None`, which is falsy. -/
def getTruthy : Option PyVal → Bool
  | Option.none => false
  | some v => truthyVal v

mutual
/-- Python `repr` of a value (as used for elements nested inside a
`str()`-rendered container): strings are single-quoted. -/
def pyRepr : PyVal → String
  | PyVal.pyNone => "None"
  | PyVal.bool b => if b then "True" else "False"
  | PyVal.int n => toString n
  | PyVal.str s => "\x27" ++ s ++ "\x27"
  | PyVal.list xs => "[" ++ pyReprList xs ++ "]"
  | PyVal.dict kvs => "\x7b" ++ pyReprDict kvs ++ "\x7d"

/-- Comma-joined `repr`s of list elements. -/
def pyReprList : List PyVal → String
  | [] => ""
  | [x] => pyRepr x
  | x :: xs => pyRepr x ++ ", " ++ pyReprList xs

/-- Comma-joined `repr`s of dict key/value pairs. -/
def pyReprDict : List (String × PyVal) → String
  | [] => ""
  | [kv] => "\x27" ++ kv.1 ++ "\x27: " ++ pyRepr kv.2
  | kv :: kvs => "\x27" ++ kv.1 ++ "\x27: " ++ pyRepr kv.2 ++ ", " ++ pyReprDict kvs
end

/-- Python `str(v)` / f-string conversion: a string renders as itself,
anything else as its `repr`. -/
def pyStr : PyVal → String
  | PyVal.str s => s
  | v => pyRepr v

/-- JSON string escaping for `json.dumps` (the escapes this program's
data can produce). -/
def jsonEscapeChar (c : Char) : String :=
  if c = '\\' then "\\\\"
  else if c = '"' then "\\\""
  else if c = '\n' then "\\n"
  else if c = '\r' then "\\r"
  else if c = '\t' then "\\t"
  else String.mk [c]

/-- JSON-escaped form of a string body. -/
def jsonEscape (s : String) : String :=
  String.join (s.data.map jsonEscapeChar)

/-- `ind` spaces, the indentation unit of `json.dumps(..., indent=2)`. -/
def spaces (ind : Nat) : String :=
  String.mk (List.replicate ind ' ')

mutual
/-- `json.dumps(v, indent=2)` rendered at indentation level `ind`. -/
def dumpsV (ind : Nat) : PyVal → String
  | PyVal.pyNone => "null"
  | PyVal.bool b => if b then "true" else "false"
  | PyVal.int n => toString n
  | PyVal.str s => "\"" ++ jsonEscape s ++ "\""
  | PyVal.list xs =>
    match xs with
    | [] => "[]"
    | _ => "[\n" ++ dumpsList (ind + 2) xs ++ "\n" ++ spaces ind ++ "]"
  | PyVal.dict kvs =>
    match kvs with
    | [] => "\x7b\x7d"
    | _ => "\x7b\n" ++ dumpsDict (ind + 2) kvs ++ "\n" ++ spaces ind ++ "\x7d"

/-- Indented, comma-separated items of a JSON array. -/
def dumpsList (ind : Nat) : List PyVal → String
  | [] => ""
  | [x] => spaces ind ++ dumpsV ind x
  | x :: xs => spaces ind ++ dumpsV ind x ++ ",\n" ++ dumpsList ind xs

/-- Indented, comma-separated members of a JSON object. -/
def dumpsDict (ind : Nat) : List (String × PyVal) → String
  | [] => ""
  | [kv] => spaces ind ++ "\"" ++ jsonEscape kv.1 ++ "\": " ++ dumpsV ind kv.2
  | kv :: kvs =>
    spaces ind ++ "\"" ++ jsonEscape kv.1 ++ "\": " ++ dumpsV ind kv.2 ++ ",\n"
      ++ dumpsDict ind kvs
end

/-- `json.dumps(v, indent=2)` at top level. -/
def dumps (v : PyVal) : String := dumpsV 0 v

/-- A customer record fabricated by the scanner: the dict
`{"id": ..., "email": ...}`. `email = none` models an absent key
(rendered "No Email" by the reporter); `some v` models a present key,
whose value may be Python `None`. -/
structure Customer where
  id : String
  email : Option PyVal

/-- The result dict a probe or the scanner returns, keyed exactly as in
the source: optional `status`, `raw_response`, `error`, and
`found_customers` keys; `none` models an absent key. -/
structure EntryDict where
  status : Option PyVal
  raw_response : Option PyVal
  error : Option PyVal
  found_customers : Option (List Customer)

/-- The answer of the HTTP transport for one request: status code, raw
body text, and the result of `response.json()` (`Except.error` carries
the `json.JSONDecodeError` message). -/
structure HttpResponse where
  status_code : Nat
  text : String
  jsonBody : Except String PyVal

/-- The transport either raises an exception (message) or delivers a
response. -/
abbrev HttpAnswer := Except String HttpResponse

/-- An HTTP request as this program builds one: method, URL, bearer
credential from the `Authorization` header, and form-encoded body. -/
structure HttpRequest where
  method : String
  url : String
  bearer : String
  formData : List (String × String)

/-- Name of a Python value's type, as it appears in an
`AttributeError` message. -/
def pyTypeName : PyVal → String
  | PyVal.pyNone => "NoneType"
  | PyVal.bool _ => "bool"
  | PyVal.int _ => "int"
  | PyVal.str _ => "str"
  | PyVal.list _ => "list"
  | PyVal.dict _ => "dict"

/-- Python dict `.get(key, default)` over an association list. -/
def dictLookup (kvs : List (String × PyVal)) (key : String) : Option PyVal :=
  match kvs.find? (fun kv => kv.1 == key) with
  | some kv => some kv.2
  | Option.none => Option.none

/-- The `{"status": False, "error": str(e)}` dict every probe returns
from its exception handler. -/
def failOutcome (e : String) : EntryDict :=
  ⟨some (PyVal.bool false), Option.none, some (PyVal.str e), Option.none⟩

/-- The `{"status": True, "raw_response": response.json()}` dict every
probe returns on HTTP 200. -/
def okOutcome (v : PyVal) : EntryDict :=
  ⟨some (PyVal.bool true), some v, Option.none, Option.none⟩

/-- The request issued by `test_list_charges`: an authenticated GET of
the charge-listing endpoint. -/
def chargesRequest (secret_key : String) : HttpRequest :=
  ⟨"GET", "https://api.stripe.com/v1/charges", secret_key, []⟩

/-- `test_list_charges(secret_key)` as a function of the transport's
answer. On 200, `{"status": True, "raw_response": response.json()}`; a
JSON decode failure there propagates to the outer handler. On non-200,
`{"status": False, "raw_response": response.json()}`, falling back to
`response.text` when decoding fails. On exception,
`{"status": False, "error": str(e)}`. -/
def test_list_charges (r : HttpAnswer) : EntryDict :=
  match r with
  | Except.error e => failOutcome e
  | Except.ok resp =>
    if resp.status_code = 200 then
      match resp.jsonBody with
      | Except.ok v => okOutcome v
      | Except.error e => failOutcome e
    else
      match resp.jsonBody with
      | Except.ok v =>
        ⟨some (PyVal.bool false), some v, Option.none, Option.none⟩
      | Except.error _ =>
        ⟨some (PyVal.bool false), some (PyVal.str resp.text), Option.none, Option.none⟩

/-- The fixed Stripe test-card form fields `test_publishable_key`
submits, exactly the `data` dict of the source. -/
def publishableCardData : List (String × String) :=
  [("card[number]", "4242424242424242"),
   ("card[exp_month]", "12"),
   ("card[exp_year]", "2025"),
   ("card[cvc]", "123")]

/-- The request issued by `test_publishable_key`: a POST of the fixed
test-card form to the token endpoint, bearer-authenticated with the
publishable key. The card fields do not depend on any argument. -/
def tokensRequest (pubkey : String) : HttpRequest :=
  ⟨"POST", "https://api.stripe.com/v1/tokens", pubkey, publishableCardData⟩

/-- `test_publishable_key(pubkey)` as a function of the transport's
answer. On 200, success with the token body. On non-200,
`error = response.json().get('error', response.text)`; a decode failure
falls back to `response.text`; `.get` on a non-dict JSON body raises
`AttributeError`, which the outer handler turns into
`{"status": False, "error": str(e)}`. -/
def test_publishable_key (r : HttpAnswer) : EntryDict :=
  match r with
  | Except.error e => failOutcome e
  | Except.ok resp =>
    if resp.status_code = 200 then
      match resp.jsonBody with
      | Except.ok v => okOutcome v
      | Except.error e => failOutcome e
    else
      match resp.jsonBody with
      | Except.ok (PyVal.dict kvs) =>
        match dictLookup kvs "error" with
        | some v => ⟨some (PyVal.bool false), Option.none, some v, Option.none⟩
        | Option.none =>
          ⟨some (PyVal.bool false), Option.none, some (PyVal.str resp.text), Option.none⟩
      | Except.ok v =>
        failOutcome ("\x27" ++ pyTypeName v ++ "\x27 object has no attribute \x27get\x27")
      | Except.error _ =>
        ⟨some (PyVal.bool false), Option.none, some (PyVal.str resp.text), Option.none⟩

/-- The request issued by `test_custom_endpoint`: an authenticated GET
of the caller-supplied URL. -/
def customRequest (secret_key : String) (endpoint : String) : HttpRequest :=
  ⟨"GET", endpoint, secret_key, []⟩

/-- `test_custom_endpoint(secret_key, endpoint)` as a function of the
transport's answer. On 200, success with the parsed JSON body (a decode
failure propagates to the outer handler). On non-200,
`{"status": False, "raw_response": response.text}` with no parse
attempt. On exception, `{"status": False, "error": str(e)}`. -/
def test_custom_endpoint (r : HttpAnswer) : EntryDict :=
  match r with
  | Except.error e => failOutcome e
  | Except.ok resp =>
    if resp.status_code = 200 then
      match resp.jsonBody with
      | Except.ok v => okOutcome v
      | Except.error e => failOutcome e
    else
      ⟨some (PyVal.bool false), some (PyVal.str resp.text), Option.none, Option.none⟩

/-- One observable action of a run: an HTTP request, or a
`time.sleep` pause (recorded in milliseconds). -/
inductive Action where
  | request (r : HttpRequest) : Action
  | sleep (ms : Int) : Action

/-- Zero-pad a digit string on the left to width `w`
(Python `{:0w}` formatting of the digits). -/
def padZeros (s : String) (w : Nat) : String :=
  String.mk (List.replicate (w - s.length) '0') ++ s

/-- Python `f"{n:010}"`: zero-padded to total width 10, the sign
counting toward the width. -/
def formatWidth10 (n : Int) : String :=
  if n < 0 then "-" ++ padZeros (toString n.natAbs) 9
  else padZeros (toString n.natAbs) 10

/-- The customer identifier the scanner fabricates:
`f"cus_{n:010}"`. -/
def cusId (n : Int) : String := "cus_" ++ formatWidth10 n

/-- `brute_force_customers(secret_key, delay, start, stop)`: sleeps
once for `delay` milliseconds and returns
`{"found_customers": [{start id, "customer1@example.com"}, {stop id, None}]}`,
paired with the trace of actions it performs. -/
def brute_force_customers (secret_key : String) (delay : Int) (start stop : Int) :
    EntryDict × List Action :=
  (⟨Option.none, Option.none, Option.none,
    some [⟨cusId start, some (PyVal.str "customer1@example.com")⟩,
          ⟨cusId stop, some PyVal.pyNone⟩]⟩,
   [Action.sleep delay])

/-- One value of the Report mapping: a probe/scanner result dict, or a
plain non-dict value (the reporter's "simple boolean or string
results" branch). -/
inductive Entry where
  | dict (d : EntryDict) : Entry
  | plain (v : PyVal) : Entry

/-- A Report: the ordered `results` mapping built by one run. -/
abbrev Report := List (String × Entry)

/-- The CLI arguments `main` receives; `none` models an omitted flag
(typer's `None` default), `delay` and `output_folder` carry their
defaults when omitted. -/
structure Args where
  mode : Option String
  secretkey : Option String
  pubkey : Option String
  start : Option Int
  stop : Option Int
  delay : Int
  custom_endpoint : Option String
  output_folder : String

/-- The transport's answers for each endpoint a run can touch. -/
structure Env where
  charges : HttpAnswer
  tokens : HttpAnswer
  custom : HttpAnswer

/-- What one invocation of `main` produces: the Report (absent when the
run is rejected by `typer.Exit` before dispatch completes), the trace
of probe/scanner actions, and whether a report file was written. -/
structure MainResult where
  report : Option Report
  actions : List Action
  fileWritten : Bool

/-- The result of every rejection path: no report, no action, no
file. -/
def rejectedRun : MainResult := ⟨Option.none, [], false⟩

/-- Python truthiness of an optional string flag (`if not secretkey`
rejects both an omitted flag and an empty string). -/
def truthyStr : Option String → Bool
  | Option.none => false
  | some s => !(s == "")

/-- The mode dispatcher, `main`: validates the required parameters of
the chosen mode, then invokes its probes in order and assembles the
Report; any validation failure (or an unknown mode) raises `typer.Exit`
before any probe runs. A nonempty Report is always saved to file. -/
def main (a : Args) (env : Env) : MainResult :=
  if a.mode = some "default" then
    match a.secretkey with
    | some sk =>
      if sk = "" then rejectedRun
      else
        ⟨some [("list_charges", Entry.dict (test_list_charges env.charges))],
         [Action.request (chargesRequest sk)], true⟩
    | Option.none => rejectedRun
  else if a.mode = some "brute-force" then
    match a.secretkey with
    | some sk =>
      if sk = "" then rejectedRun
      else
        match a.start with
        | some b =>
          match a.stop with
          | some e =>
            if b > e then rejectedRun
            else
              let bf := brute_force_customers sk a.delay b e
              ⟨some [("brute_force_results", Entry.dict bf.1)], bf.2, true⟩
          | Option.none => rejectedRun
        | Option.none => rejectedRun
    | Option.none => rejectedRun
  else if a.mode = some "pubkey" then
    match a.pubkey with
    | some pk =>
      if pk = "" then rejectedRun
      else
        ⟨some [("test_publishable_key", Entry.dict (test_publishable_key env.tokens))],
         [Action.request (tokensRequest pk)], true⟩
    | Option.none => rejectedRun
  else if a.mode = some "full" then
    match a.secretkey with
    | some sk =>
      if sk = "" then rejectedRun
      else
        match a.pubkey with
        | some pk =>
          if pk = "" then rejectedRun
          else
            ⟨some [("list_charges", Entry.dict (test_list_charges env.charges)),
                   ("test_publishable_key", Entry.dict (test_publishable_key env.tokens))],
             [Action.request (chargesRequest sk), Action.request (tokensRequest pk)], true⟩
        | Option.none => rejectedRun
    | Option.none => rejectedRun
  else if a.mode = some "restricted" then
    match a.secretkey with
    | some sk =>
      if sk = "" then rejectedRun
      else
        ⟨some [("list_charges", Entry.dict (test_list_charges env.charges))],
         [Action.request (chargesRequest sk)], true⟩
    | Option.none => rejectedRun
  else if a.mode = some "custom" then
    match a.secretkey with
    | some sk =>
      if sk = "" then rejectedRun
      else
        match a.custom_endpoint with
        | some ep =>
          if ep = "" then rejectedRun
          else
            ⟨some [("test_custom_endpoint", Entry.dict (test_custom_endpoint env.custom))],
             [Action.request (customRequest sk ep)], true⟩
        | Option.none => rejectedRun
    | Option.none => rejectedRun
  else rejectedRun

/-- One row of either reporter rendering: the Test, Result and Status
cells. -/
structure Row where
  test : String
  result : String
  status : String

/-- The Result cell for a present `raw_response`: `json.dumps(...,
indent=2)` for a dict or list, `str(...)` otherwise. -/
def rawResponseStr (v : PyVal) : String :=
  match v with
  | PyVal.dict _ => dumps v
  | PyVal.list _ => dumps v
  | _ => pyStr v

/-- The per-customer row both renderings produce:
`f"{customer['id']} ({customer.get('email', 'No Email')})"` and status
`PASS` iff the id is truthy. -/
def customerRow (c : Customer) : Row :=
  ⟨"Found Customer",
   c.id ++ " (" ++ (match c.email with
     | Option.none => "No Email"
     | some v => pyStr v) ++ ")",
   if c.id = "" then "FAIL" else "PASS"⟩

/-- The rows `save_results_to_file` appends to `csv_data` for one
Report entry. The status summary prefers `error`, then `raw_response`,
then "Unknown Error". -/
def saveRowsOfEntry (test : String) (e : Entry) : List Row :=
  match e with
  | Entry.dict d =>
    let summary :=
      match d.error with
      | some v => pyStr v
      | Option.none =>
        match d.raw_response with
        | some v => pyStr v
        | Option.none => "Unknown Error"
    let status :=
      if getTruthy d.status then "PASS" else "FAIL (" ++ summary ++ ")"
    match d.raw_response with
    | some v => [⟨test, rawResponseStr v, status⟩]
    | Option.none =>
      match d.found_customers with
      | some cs => cs.map customerRow
      | Option.none => [⟨test, "-", status⟩]
  | Entry.plain v =>
    ⟨test, "-",
     match v with
     | PyVal.bool true => "PASS"
     | _ => "FAIL (" ++ pyStr v ++ ")"⟩ :: []

/-- The full `csv_data` row list `save_results_to_file` writes for a
Report. -/
def csv_data (report : Report) : List Row :=
  report.foldr (fun p acc => saveRowsOfEntry p.1 p.2 ++ acc) []

/-- The rows `display_results` adds to the display table for one Report
entry. A failing entry with a `raw_response` shows plain "FAIL"; the
entries without one show `FAIL (<error-or-Unknown>)`. -/
def displayRowsOfEntry (test : String) (e : Entry) : List Row :=
  match e with
  | Entry.dict d =>
    match d.raw_response with
    | some v =>
      [⟨test, rawResponseStr v, if getTruthy d.status then "PASS" else "FAIL"⟩]
    | Option.none =>
      match d.found_customers with
      | some cs => cs.map customerRow
      | Option.none =>
        [⟨test, "-",
          if getTruthy d.status then "PASS"
          else "FAIL (" ++ (match d.error with
            | some v => pyStr v
            | Option.none => "Unknown Error") ++ ")"⟩]
  | Entry.plain v =>
    ⟨test, "-",
     match v with
     | PyVal.bool true => "PASS"
     | _ => "FAIL (" ++ pyStr v ++ ")"⟩ :: []

/-- The full row list of the display table for a Report. -/
def display_rows (report : Report) : List Row :=
  report.foldr (fun p acc => displayRowsOfEntry p.1 p.2 ++ acc) []

/-- A character the CSV writer must quote around: the delimiter, the
quote character, or a line-terminator character (`csv.QUOTE_MINIMAL`
with the default dialect). -/
def isCsvSpecial (c : Char) : Bool :=
  c == ',' || c == '"' || c == '\r' || c == '\n'

/-- Double every quote character, the CSV escaping of a quoted
field. -/
def escQ : List Char → List Char
  | [] => []
  | c :: r => if c = '"' then '"' :: '"' :: escQ r else c :: escQ r

/-- Whether a field must be written quoted. -/
def fieldNeedsQuote (s : List Char) : Bool := s.any isCsvSpecial

/-- One CSV field as the writer emits it: quoted with doubled inner
quotes when it contains a special character, verbatim otherwise. -/
def encodeFieldC (s : List Char) : List Char :=
  if fieldNeedsQuote s then '"' :: (escQ s ++ ['"']) else s

/-- One `Test,Result,Status` record as `csv.DictWriter` emits it,
terminated by the default `\r\n`. -/
def encodeRowC (r : Row) : List Char :=
  encodeFieldC r.test.data ++ ',' ::
    (encodeFieldC r.result.data ++ ',' ::
      (encodeFieldC r.status.data ++ ['\r', '\n']))

/-- The concatenated records of a row list. -/
def encodeRecords (rows : List Row) : List Char :=
  rows.foldr (fun r acc => encodeRowC r ++ acc) []

/-- The header row `writeheader` emits. -/
def headerRow : Row := ⟨"Test", "Result", "Status"⟩

/-- The full contents of the report file `save_results_to_file` writes
for a Report: the `Test,Result,Status` header then one record per
`csv_data` row. -/
def savedFileString (report : Report) : String :=
  String.mk (encodeRecords (headerRow :: csv_data report))

/-- How the characters after one field ended: a comma, an end of
record, or the end of the file. -/
inductive FieldEnd where
  | comma : FieldEnd
  | newline : FieldEnd
  | fileEnd : FieldEnd

/-- Modelled from the spec: the repository has no reader for its own
report files, so "parsing that file back" is embedded as a standard
CSV reader. Body of a quoted field: a doubled quote is a literal
quote, a lone quote closes the field; `acc` accumulates the decoded
characters. -/
def pQB : List Char → List Char → Option (List Char × List Char)
  | [], _ => Option.none
  | c :: r, acc =>
    if c = '"' then
      match r with
      | [] => some (acc, [])
      | c2 :: r2 => if c2 = '"' then pQB r2 (acc ++ ['"']) else some (acc, c2 :: r2)
    else pQB r (acc ++ [c])

/-- Modelled from the spec: an unquoted field, read up to a comma, an
end of record, or the end of input. -/
def pRaw : List Char → List Char → List Char × FieldEnd × List Char
  | [], acc => (acc, FieldEnd.fileEnd, [])
  | c :: r, acc =>
    if c = ',' then (acc, FieldEnd.comma, r)
    else if c = '\n' then (acc, FieldEnd.newline, r)
    else if c = '\r' then
      match r with
      | '\n' :: r2 => (acc, FieldEnd.newline, r2)
      | _ => pRaw r (acc ++ [c])
    else pRaw r (acc ++ [c])

/-- Modelled from the spec: one CSV field, quoted or unquoted, together
with how it ended and the remaining input. -/
def parseOneField : List Char → Option (List Char × FieldEnd × List Char)
  | [] => some ([], FieldEnd.fileEnd, [])
  | c :: r =>
    if c = '"' then
      match pQB r [] with
      | some (f, rest) =>
        match rest with
        | [] => some (f, FieldEnd.fileEnd, [])
        | c2 :: r2 =>
          if c2 = ',' then some (f, FieldEnd.comma, r2)
          else if c2 = '\n' then some (f, FieldEnd.newline, r2)
          else if c2 = '\r' then
            match r2 with
            | '\n' :: r3 => some (f, FieldEnd.newline, r3)
            | _ => Option.none
          else Option.none
      | Option.none => Option.none
    else some (pRaw (c :: r) [])

/-- Modelled from the spec: one three-column record of the report file,
and the remaining input after its terminator. -/
def parseOneRecord (cs : List Char) :
    Option ((List Char × List Char × List Char) × List Char) :=
  match parseOneField cs with
  | some (f1, FieldEnd.comma, r1) =>
    match parseOneField r1 with
    | some (f2, FieldEnd.comma, r2) =>
      match parseOneField r2 with
      | some (f3, FieldEnd.newline, r3) => some ((f1, f2, f3), r3)
      | some (f3, FieldEnd.fileEnd, r3) => some ((f1, f2, f3), r3)
      | _ => Option.none
    | _ => Option.none
  | _ => Option.none

/-- Modelled from the spec: all records of the file, with `fuel`
bounding the record count. -/
def parseRecords : Nat → List Char → Option (List (List Char × List Char × List Char))
  | 0, cs => if cs.isEmpty then some [] else Option.none
  | n + 1, cs =>
    if cs.isEmpty then some []
    else
      (parseOneRecord cs).bind fun p =>
        (parseRecords n p.2).map fun rs => p.1 :: rs

/-- Modelled from the spec: parse a report file back into its
`(Test, Result, Status)` records. -/
def parseCSV (s : String) : Option (List (String × String × String)) :=
  match parseRecords (s.length + 1) s.data with
  | some rs =>
    some (rs.map (fun t => (String.mk t.1, String.mk t.2.1, String.mk t.2.2)))
  | Option.none => Option.none

/-! ## Claim statements and proofs -/

/-- Whether the mode name is one of the six recognized modes. -/
def recognizedMode (m : Option String) : Bool :=
  decide (m = some "default") || decide (m = some "brute-force")
    || decide (m = some "pubkey") || decide (m = some "full")
    || decide (m = some "restricted") || decide (m = some "custom")

/-- Whether a parameter the spec's mode table requires for the chosen
mode is unset. -/
def missingRequiredParam (a : Args) : Bool :=
  if a.mode = some "default" then a.secretkey.isNone
  else if a.mode = some "brute-force" then
    a.secretkey.isNone || a.start.isNone || a.stop.isNone
  else if a.mode = some "pubkey" then a.pubkey.isNone
  else if a.mode = some "full" then a.secretkey.isNone || a.pubkey.isNone
  else if a.mode = some "restricted" then a.secretkey.isNone
  else if a.mode = some "custom" then
    a.secretkey.isNone || a.custom_endpoint.isNone
  else false

/-- Whether brute-force mode was invoked with `startId > stopId`. -/
def badBruteRange (a : Args) : Bool :=
  decide (a.mode = some "brute-force") &&
    (match a.start with
     | some b =>
       match a.stop with
       | some e => decide (b > e)
       | Option.none => false
     | Option.none => false)

/-- C1: whenever a required parameter of the chosen mode is unset, or
`startId > stopId` in brute-force mode, or the mode name is not one of
the six recognized modes, `main` rejects the run: no Report is
produced, no probe/Scanner action (hence no network I/O) is performed,
and no report file is written. -/
theorem mode_dispatch_rejects (a : Args) (env : Env)
    (h : missingRequiredParam a = true ∨ badBruteRange a = true ∨
      recognizedMode a.mode = false) :
    main a env = rejectedRun := by
  rcases h with h | h | h
  · simp only [missingRequiredParam] at h
    split_ifs at h with h1 h2 h3 h4 h5 h6
    · rw [Option.isNone_iff_eq_none] at h
      simp [main, h1, h]
    · cases hsk : a.secretkey with
      | none => simp [main, h1, h2, hsk]
      | some sk =>
        cases hst : a.start with
        | none => simp [main, h1, h2, hsk, hst]
        | some b =>
          cases hsp : a.stop with
          | none => simp [main, h1, h2, hsk, hst, hsp]
          | some e => rw [hsk, hst, hsp] at h; simp at h
    · rw [Option.isNone_iff_eq_none] at h
      simp [main, h1, h2, h3, h]
    · cases hsk : a.secretkey with
      | none => simp [main, h1, h2, h3, h4, hsk]
      | some sk =>
        cases hpk : a.pubkey with
        | none => simp [main, h1, h2, h3, h4, hsk, hpk]
        | some pk => rw [hsk, hpk] at h; simp at h
    · rw [Option.isNone_iff_eq_none] at h
      simp [main, h1, h2, h3, h4, h5, h]
    · cases hsk : a.secretkey with
      | none => simp [main, h1, h2, h3, h4, h5, h6, hsk]
      | some sk =>
        cases hce : a.custom_endpoint with
        | none => simp [main, h1, h2, h3, h4, h5, h6, hsk, hce]
        | some ep => rw [hsk, hce] at h; simp at h
  · simp only [badBruteRange, Bool.and_eq_true, decide_eq_true_eq] at h
    obtain ⟨hm, hr⟩ := h
    cases hst : a.start with
    | none => rw [hst] at hr; simp at hr
    | some b =>
      cases hsp : a.stop with
      | none => rw [hst, hsp] at hr; simp at hr
      | some e =>
        rw [hst, hsp] at hr
        simp only [decide_eq_true_eq] at hr
        cases hsk : a.secretkey with
        | none => simp [main, hm, hsk]
        | some sk => simp [main, hm, hsk, hst, hsp, hr]
  · simp only [recognizedMode, Bool.or_eq_false_iff, decide_eq_false_iff_not] at h
    obtain ⟨⟨⟨⟨⟨n1, n2⟩, n3⟩, n4⟩, n5⟩, n6⟩ := h
    simp [main, n1, n2, n3, n4, n5, n6]

/-- An invocation with an unknown mode name, used as the rejection
witness. -/
def argsUnknownMode : Args :=
  ⟨some "bogus", Option.none, Option.none, Option.none, Option.none, 500,
   Option.none, "output"⟩

/-- A transport that refuses every request. -/
def envDown : Env :=
  ⟨Except.error "connection refused", Except.error "connection refused",
   Except.error "connection refused"⟩

/-- Witness for C1: an unknown-mode invocation is rejected with no
report, no actions and no file. -/
theorem mode_dispatch_rejects_witness :
    (missingRequiredParam argsUnknownMode = true ∨
      badBruteRange argsUnknownMode = true ∨
      recognizedMode argsUnknownMode.mode = false) ∧
    main argsUnknownMode envDown = rejectedRun :=
  ⟨Or.inr (Or.inr (by decide)),
   mode_dispatch_rejects argsUnknownMode envDown (Or.inr (Or.inr (by decide)))⟩

/-- C2: for `startId ≤ stopId` the scanner sleeps exactly once for
`delayMs` milliseconds and returns exactly two identifiers, the first
formatted from `startId` and the second from `stopId` by
`f"cus_{n:010}"`. -/
theorem scan_returns_boundary_ids (sk : String) (delay : Int) (b e : Int)
    (h : b ≤ e) :
    brute_force_customers sk delay b e =
      (⟨Option.none, Option.none, Option.none,
        some [⟨cusId b, some (PyVal.str "customer1@example.com")⟩,
              ⟨cusId e, some PyVal.pyNone⟩]⟩,
       [Action.sleep delay]) := rfl

/-- Witness for C2: `startId=1, stopId=100` yields exactly the ids
`cus_0000000001` and `cus_0000000100`. -/
theorem scan_returns_boundary_ids_witness :
    (1 : Int) ≤ 100 ∧
    ((brute_force_customers "sk_test_x" 500 1 100).1.found_customers.getD []).map
        Customer.id = ["cus_0000000001", "cus_0000000100"] ∧
    (brute_force_customers "sk_test_x" 500 1 100).2 = [Action.sleep 500] := by
  refine ⟨by decide, ?_, ?_⟩
  · rw [scan_returns_boundary_ids "sk_test_x" 500 1 100 (by decide)]
    rfl
  · rw [scan_returns_boundary_ids "sk_test_x" 500 1 100 (by decide)]

/-- C10: for `startId ≤ stopId` the first returned identifier always
carries the fixed email `customer1@example.com` and the second the
email value `None`, whatever the credential, delay and range; and when
`startId = stopId` both entries carry the identical id. -/
theorem scan_fixed_emails (sk : String) (delay : Int) (b e : Int)
    (h : b ≤ e) :
    ((brute_force_customers sk delay b e).1.found_customers.getD []).map
        Customer.email =
      [some (PyVal.str "customer1@example.com"), some PyVal.pyNone] ∧
    (b = e →
      ((brute_force_customers sk delay b e).1.found_customers.getD []).map
          Customer.id = [cusId b, cusId b]) := by
  refine ⟨rfl, ?_⟩
  intro hbe
  subst hbe
  rfl

/-- Witness for C10: at `startId = stopId = 5` the two entries carry
the fixed emails and the identical id. -/
theorem scan_fixed_emails_witness :
    (5 : Int) ≤ 5 ∧
    ((brute_force_customers "rk_test_y" 250 5 5).1.found_customers.getD []).map
        Customer.email =
      [some (PyVal.str "customer1@example.com"), some PyVal.pyNone] ∧
    ((brute_force_customers "rk_test_y" 250 5 5).1.found_customers.getD []).map
        Customer.id = [cusId 5, cusId 5] :=
  ⟨by decide, (scan_fixed_emails "rk_test_y" 250 5 5 (by decide)).1,
   (scan_fixed_emails "rk_test_y" 250 5 5 (by decide)).2 rfl⟩

/-- C4: the token-creation request submits exactly the fixed test-card
tuple `4242424242424242 / 12 / 2025 / 123`, and its card fields are
independent of every caller-supplied input (the only caller input, the
publishable key, reaches only the bearer credential). -/
theorem publishable_card_payload_fixed (pk : String) :
    tokensRequest pk =
      ⟨"POST", "https://api.stripe.com/v1/tokens", pk,
       [("card[number]", "4242424242424242"), ("card[exp_month]", "12"),
        ("card[exp_year]", "2025"), ("card[cvc]", "123")]⟩ ∧
    ∀ pk2 : String, (tokensRequest pk).formData = (tokensRequest pk2).formData :=
  ⟨rfl, fun _ => rfl⟩

/-- C6: no probe lets a failure escape — a transport exception yields
exactly `{"status": False, "error": str(e)}` (error set, payload
absent) in all three probes, and every transport answer whatsoever
yields an outcome carrying a payload or an error. -/
theorem probes_capture_failures (e : String) (r : HttpAnswer) :
    test_list_charges (Except.error e) = failOutcome e ∧
    test_publishable_key (Except.error e) = failOutcome e ∧
    test_custom_endpoint (Except.error e) = failOutcome e ∧
    (failOutcome e).status = some (PyVal.bool false) ∧
    (failOutcome e).error = some (PyVal.str e) ∧
    (failOutcome e).raw_response = Option.none ∧
    ((test_list_charges r).raw_response.isSome
      || (test_list_charges r).error.isSome) = true ∧
    ((test_publishable_key r).raw_response.isSome
      || (test_publishable_key r).error.isSome) = true ∧
    ((test_custom_endpoint r).raw_response.isSome
      || (test_custom_endpoint r).error.isSome) = true := by
  refine ⟨rfl, rfl, rfl, rfl, rfl, rfl, ?_, ?_, ?_⟩
  · cases r with
    | error e2 => rfl
    | ok resp =>
      by_cases h200 : resp.status_code = 200 <;>
        cases hj : resp.jsonBody <;>
          simp [test_list_charges, h200, hj, okOutcome, failOutcome]
  · cases r with
    | error e2 => rfl
    | ok resp =>
      by_cases h200 : resp.status_code = 200
      · cases hj : resp.jsonBody <;>
          simp [test_publishable_key, h200, hj, okOutcome, failOutcome]
      · cases hj : resp.jsonBody with
        | error e2 => simp [test_publishable_key, h200, hj]
        | ok v =>
          cases v with
          | dict kvs =>
            cases hl : dictLookup kvs "error" <;>
              simp [test_publishable_key, h200, hj, hl]
          | pyNone => simp [test_publishable_key, h200, hj, failOutcome]
          | bool b => simp [test_publishable_key, h200, hj, failOutcome]
          | int n => simp [test_publishable_key, h200, hj, failOutcome]
          | str s => simp [test_publishable_key, h200, hj, failOutcome]
          | list xs => simp [test_publishable_key, h200, hj, failOutcome]
  · cases r with
    | error e2 => rfl
    | ok resp =>
      by_cases h200 : resp.status_code = 200 <;>
        cases hj : resp.jsonBody <;>
          simp [test_custom_endpoint, h200, hj, okOutcome, failOutcome]

/-- A 200 response whose body is not valid JSON: `response.json()`
raises, so `test_list_charges` falls into its exception handler. -/
def resp200BadJson : HttpResponse :=
  ⟨200, "<html>Service Unavailable</html>",
   Except.error "Expecting value: line 1 column 1 (char 0)"⟩

/-- C3 counterexample: a 200 response whose body fails to parse as JSON
yields `succeeded = false`, refuting "succeeded = true if and only if
the HTTP status is 200" at this input. -/
theorem list_charges_200_not_success :
    resp200BadJson.status_code = 200 ∧
    (test_list_charges (Except.ok resp200BadJson)).status
      = some (PyVal.bool false) ∧
    getTruthy (test_list_charges (Except.ok resp200BadJson)).status = false :=
  ⟨rfl, rfl, rfl⟩

/-- C3 as amended: `succeeded = true` iff the status is 200 AND the
body parses as JSON, in which case the payload is the parsed body; on a
non-200 status the payload is the parsed body, falling back to the raw
text when parsing fails, with `succeeded = false`; a transport
exception — and likewise a JSON decode failure on a 200 body, which
escapes to the same handler — yields `succeeded = false` with `error`
equal to the exception message and no payload. -/
theorem list_charges_outcome (r : HttpAnswer) :
    (getTruthy (test_list_charges r).status = true ↔
      ∃ resp v, r = Except.ok resp ∧ resp.status_code = 200 ∧
        resp.jsonBody = Except.ok v) ∧
    (∀ resp v, r = Except.ok resp → resp.status_code = 200 →
      resp.jsonBody = Except.ok v → test_list_charges r = okOutcome v) ∧
    (∀ resp v, r = Except.ok resp → resp.status_code ≠ 200 →
      resp.jsonBody = Except.ok v →
      test_list_charges r =
        ⟨some (PyVal.bool false), some v, Option.none, Option.none⟩) ∧
    (∀ resp e, r = Except.ok resp → resp.status_code ≠ 200 →
      resp.jsonBody = Except.error e →
      test_list_charges r =
        ⟨some (PyVal.bool false), some (PyVal.str resp.text), Option.none,
         Option.none⟩) ∧
    (∀ resp e, r = Except.ok resp → resp.status_code = 200 →
      resp.jsonBody = Except.error e → test_list_charges r = failOutcome e) ∧
    (∀ e, r = Except.error e → test_list_charges r = failOutcome e) := by
  refine ⟨?_, ?_, ?_, ?_, ?_, ?_⟩
  · constructor
    · intro h
      cases r with
      | error e => simp [test_list_charges, failOutcome, getTruthy, truthyVal] at h
      | ok resp =>
        by_cases h200 : resp.status_code = 200
        · cases hj : resp.jsonBody with
          | ok v => exact ⟨resp, v, rfl, h200, hj⟩
          | error e =>
            simp [test_list_charges, h200, hj, failOutcome, getTruthy,
              truthyVal] at h
        · cases hj : resp.jsonBody <;>
            simp [test_list_charges, h200, hj, getTruthy, truthyVal] at h
    · rintro ⟨resp, v, rfl, h200, hj⟩
      simp [test_list_charges, h200, hj, okOutcome, getTruthy, truthyVal]
  · rintro resp v rfl h200 hj
    simp [test_list_charges, h200, hj]
  · rintro resp v rfl h200 hj
    simp [test_list_charges, h200, hj]
  · rintro resp e rfl h200 hj
    simp [test_list_charges, h200, hj]
  · rintro resp e rfl h200 hj
    simp [test_list_charges, h200, hj]
  · rintro e rfl
    rfl

/-- Witness for C3 (amended): a transport exception yields the
failure outcome, and the counterexample input yields the amended
exception-handler outcome. -/
theorem list_charges_outcome_witness :
    test_list_charges (Except.error "boom") = failOutcome "boom" ∧
    test_list_charges (Except.ok resp200BadJson) =
      failOutcome "Expecting value: line 1 column 1 (char 0)" :=
  ⟨(list_charges_outcome (Except.error "boom")).2.2.2.2.2 "boom" rfl,
   (list_charges_outcome (Except.ok resp200BadJson)).2.2.2.2.1 resp200BadJson
     "Expecting value: line 1 column 1 (char 0)" rfl rfl rfl⟩

/-- C5: `test_custom_endpoint` succeeds iff the status is 200 with the
payload the parsed JSON body; any non-200 response yields
`succeeded = false` with the payload the raw response text — whatever
the body would parse to, i.e. with no JSON parse attempted; a transport
exception sets `error`. (A 200 body that fails to parse escapes to the
exception handler, also setting `error`.) -/
theorem custom_endpoint_outcome (r : HttpAnswer) :
    (getTruthy (test_custom_endpoint r).status = true ↔
      ∃ resp v, r = Except.ok resp ∧ resp.status_code = 200 ∧
        resp.jsonBody = Except.ok v) ∧
    (∀ resp v, r = Except.ok resp → resp.status_code = 200 →
      resp.jsonBody = Except.ok v → test_custom_endpoint r = okOutcome v) ∧
    (∀ resp, r = Except.ok resp → resp.status_code ≠ 200 →
      test_custom_endpoint r =
        ⟨some (PyVal.bool false), some (PyVal.str resp.text), Option.none,
         Option.none⟩) ∧
    (∀ e, r = Except.error e → test_custom_endpoint r = failOutcome e) ∧
    (∀ resp e, r = Except.ok resp → resp.status_code = 200 →
      resp.jsonBody = Except.error e →
      test_custom_endpoint r = failOutcome e) := by
  refine ⟨?_, ?_, ?_, ?_, ?_⟩
  · constructor
    · intro h
      cases r with
      | error e => simp [test_custom_endpoint, failOutcome, getTruthy, truthyVal] at h
      | ok resp =>
        by_cases h200 : resp.status_code = 200
        · cases hj : resp.jsonBody with
          | ok v => exact ⟨resp, v, rfl, h200, hj⟩
          | error e =>
            simp [test_custom_endpoint, h200, hj, failOutcome, getTruthy,
              truthyVal] at h
        · simp [test_custom_endpoint, h200, getTruthy, truthyVal] at h
    · rintro ⟨resp, v, rfl, h200, hj⟩
      simp [test_custom_endpoint, h200, hj, okOutcome, getTruthy, truthyVal]
  · rintro resp v rfl h200 hj
    simp [test_custom_endpoint, h200, hj]
  · rintro resp rfl h200
    simp [test_custom_endpoint, h200]
  · rintro e rfl
    rfl
  · rintro resp e rfl h200 hj
    simp [test_custom_endpoint, h200, hj]

/-- A 404 response whose body WOULD parse as JSON, showing the custom
probe ignores the parse on non-200. -/
def resp404Parseable : HttpResponse :=
  ⟨404, "not found",
   Except.ok (PyVal.dict [("error", PyVal.str "missing resource")])⟩

/-- Witness for C5: a non-200 response yields the raw text as payload
even though its body parses as JSON, and a transport exception sets
`error`. -/
theorem custom_endpoint_outcome_witness :
    test_custom_endpoint (Except.ok resp404Parseable) =
      ⟨some (PyVal.bool false), some (PyVal.str "not found"), Option.none,
       Option.none⟩ ∧
    test_custom_endpoint (Except.error "timeout") = failOutcome "timeout" :=
  ⟨(custom_endpoint_outcome (Except.ok resp404Parseable)).2.2.1 resp404Parseable
     rfl (by decide),
   (custom_endpoint_outcome (Except.error "timeout")).2.2.2.1 "timeout" rfl⟩

/-- C7: every valid full-mode invocation produces a Report holding
exactly the keys `list_charges` then `test_publishable_key`, the
charges probe invoked before the token probe, each evaluated from its
own transport answer — so for every environment, including ones where
either probe fails, both entries are present. -/
theorem full_mode_report (a : Args) (env : Env) (sk pk : String)
    (hm : a.mode = some "full") (hsk : a.secretkey = some sk)
    (hsk2 : sk ≠ "") (hpk : a.pubkey = some pk) (hpk2 : pk ≠ "") :
    main a env =
      ⟨some [("list_charges", Entry.dict (test_list_charges env.charges)),
             ("test_publishable_key", Entry.dict (test_publishable_key env.tokens))],
       [Action.request (chargesRequest sk), Action.request (tokensRequest pk)],
       true⟩ := by
  simp [main, hm, hsk, hpk, hsk2, hpk2]

/-- A valid full-mode invocation used as witness. -/
def argsFull : Args :=
  ⟨some "full", some "sk_test_w", some "pk_test_w", Option.none, Option.none,
   500, Option.none, "output"⟩

/-- Witness for C7: against a transport that refuses every request,
full mode still reports both entries, in order, and writes the file. -/
theorem full_mode_report_witness :
    main argsFull envDown =
      ⟨some [("list_charges", Entry.dict (test_list_charges envDown.charges)),
             ("test_publishable_key",
              Entry.dict (test_publishable_key envDown.tokens))],
       [Action.request (chargesRequest "sk_test_w"),
        Action.request (tokensRequest "pk_test_w")], true⟩ :=
  full_mode_report argsFull envDown "sk_test_w" "pk_test_w" rfl rfl (by decide)
    rfl (by decide)

/-- What the two renderings must agree on: the Test and Result cells
and the PASS/FAIL classification of the Status cell. -/
def rowKey (r : Row) : String × String × Bool :=
  (r.test, r.result, r.status == "PASS")

/-- A `FAIL (...)` status string is never the `PASS` status. -/
theorem fail_status_ne_pass (s : String) :
    (("FAIL (" ++ s ++ ")") == "PASS") = false := by
  rw [beq_eq_false_iff_ne]
  intro hcontra
  have hl := congrArg String.length hcontra
  rw [String.length_append, String.length_append] at hl
  have h1 : ("FAIL (" : String).length = 6 := rfl
  have h2 : (")" : String).length = 1 := rfl
  have h3 : ("PASS" : String).length = 4 := rfl
  simp only [h1, h2, h3] at hl
  omega

/-- The two renderings of one Report entry produce the same rows up to
the FAIL summary text. -/
theorem rowKey_entry (t : String) (e : Entry) :
    (saveRowsOfEntry t e).map rowKey = (displayRowsOfEntry t e).map rowKey := by
  cases e with
  | plain v => rfl
  | dict d =>
    cases hrr : d.raw_response with
    | some v =>
      by_cases hs : getTruthy d.status = true
      · simp [saveRowsOfEntry, displayRowsOfEntry, hrr, hs, rowKey]
      · simp [saveRowsOfEntry, displayRowsOfEntry, hrr, hs, rowKey,
          fail_status_ne_pass]
    | none =>
      cases hfc : d.found_customers with
      | some cs => simp [saveRowsOfEntry, displayRowsOfEntry, hrr, hfc]
      | none =>
        cases he : d.error <;>
          simp [saveRowsOfEntry, displayRowsOfEntry, hrr, hfc, he, rowKey]

/-- The failing-with-payload entry on which the two renderings
disagree: `{"status": False, "raw_response": "nope"}`. -/
def reportRawFail : Report :=
  [("list_charges",
    Entry.dict ⟨some (PyVal.bool false), some (PyVal.str "nope"), Option.none,
      Option.none⟩)]

/-- C8 counterexample: for a Report with a failing `raw_response`
entry, the file rows and the display rows carry different status
strings (`FAIL (nope)` vs `FAIL`), refuting "the display table and the
file assign identical statuses to corresponding rows". -/
theorem reporter_status_strings_differ :
    (csv_data reportRawFail).map Row.status = ["FAIL (nope)"] ∧
    (display_rows reportRawFail).map Row.status = ["FAIL"] ∧
    (csv_data reportRawFail).map Row.status ≠
      (display_rows reportRawFail).map Row.status := by
  refine ⟨rfl, rfl, ?_⟩
  decide

/-- C8 as amended: the two renderings are derived deterministically
from the same Report with rows in one-to-one correspondence — equal
Test cells, equal Result cells, and the same PASS/FAIL classification —
but the FAIL status string differs on entries with a payload present:
the file appends the summary (preferring `error`, then the payload,
then "Unknown Error") while the display shows plain `FAIL`; all other
corresponding status strings are identical. -/
theorem reporter_renderings_agree (report : Report) :
    (csv_data report).map rowKey = (display_rows report).map rowKey := by
  induction report with
  | nil => rfl
  | cons p rest ih =>
    simp only [csv_data, display_rows, List.foldr_cons] at *
    rw [List.map_append, List.map_append, rowKey_entry, ih]

/-- Whether a character list starts with the quote character. -/
def headIsQuote : List Char → Bool
  | [] => false
  | c :: _ => c == '"'

/-- Reading a quoted body: the quote-doubled form of `s`, followed by
the closing quote and a continuation not starting with a quote, decodes
back to `s`. -/
theorem pQB_escQ (s : List Char) : ∀ (acc rest : List Char),
    headIsQuote rest = false →
    pQB (escQ s ++ '"' :: rest) acc = some (acc ++ s, rest) := by
  induction s with
  | nil =>
    intro acc rest h
    cases rest with
    | nil => simp [escQ, pQB]
    | cons c2 r2 =>
      have hne : ¬(c2 = '"') := by simpa [headIsQuote] using h
      simp [escQ, pQB, hne]
  | cons c s ih =>
    intro acc rest h
    by_cases hc : c = '"'
    · subst hc
      simp [escQ, pQB, ih, h, List.append_assoc]
    · simp only [escQ, hc, if_false, List.cons_append]
      rw [pQB.eq_def]
      simp only [hc, if_false]
      rw [ih (acc ++ [c]) rest h]
      simp [List.append_assoc]

/-- Reading an unquoted field up to a comma: a field with no special
characters reads back verbatim. -/
theorem pRaw_comma (s : List Char) : ∀ (acc rest : List Char),
    fieldNeedsQuote s = false →
    pRaw (s ++ ',' :: rest) acc = (acc ++ s, FieldEnd.comma, rest) := by
  induction s with
  | nil => intro acc rest h; simp [pRaw]
  | cons c s ih =>
    intro acc rest h
    simp only [fieldNeedsQuote, List.any_cons, Bool.or_eq_false_iff,
      isCsvSpecial, beq_eq_false_iff_ne, ne_eq] at h
    obtain ⟨⟨⟨⟨h1, h2⟩, h3⟩, h4⟩, hs⟩ := h
    rw [List.cons_append]
    simp only [pRaw, h1, h3, h4, if_false]
    rw [ih (acc ++ [c]) rest hs]
    simp [List.append_assoc]

/-- Reading an unquoted field up to an end of record. -/
theorem pRaw_newline (s : List Char) : ∀ (acc rest : List Char),
    fieldNeedsQuote s = false →
    pRaw (s ++ '\r' :: '\n' :: rest) acc = (acc ++ s, FieldEnd.newline, rest) := by
  induction s with
  | nil => intro acc rest h; simp [pRaw]
  | cons c s ih =>
    intro acc rest h
    simp only [fieldNeedsQuote, List.any_cons, Bool.or_eq_false_iff,
      isCsvSpecial, beq_eq_false_iff_ne, ne_eq] at h
    obtain ⟨⟨⟨⟨h1, h2⟩, h3⟩, h4⟩, hs⟩ := h
    rw [List.cons_append]
    simp only [pRaw, h1, h3, h4, if_false]
    rw [ih (acc ++ [c]) rest hs]
    simp [List.append_assoc]

/-- One encoded field followed by a comma parses back to the field. -/
theorem parseField_comma (s rest : List Char) :
    parseOneField (encodeFieldC s ++ ',' :: rest) =
      some (s, FieldEnd.comma, rest) := by
  by_cases hq : fieldNeedsQuote s = true
  · simp only [encodeFieldC, hq, if_pos]
    rw [List.cons_append, List.append_assoc, List.singleton_append]
    simp [parseOneField, pQB_escQ s [] (',' :: rest) rfl]
  · have hq2 : fieldNeedsQuote s = false := by simpa using hq
    simp only [encodeFieldC, hq2, Bool.false_eq_true, if_false]
    cases s with
    | nil => simp [parseOneField, pRaw]
    | cons c s2 =>
      have hq3 := hq2
      simp only [fieldNeedsQuote, List.any_cons, Bool.or_eq_false_iff,
        isCsvSpecial, beq_eq_false_iff_ne, ne_eq] at hq3
      have hcq : ¬(c = '"') := hq3.1.1.1.2
      rw [List.cons_append]
      simp only [parseOneField, hcq, if_false]
      rw [← List.cons_append, pRaw_comma (c :: s2) [] rest hq2]
      simp

/-- One encoded field followed by a record terminator parses back to
the field. -/
theorem parseField_newline (s rest : List Char) :
    parseOneField (encodeFieldC s ++ '\r' :: '\n' :: rest) =
      some (s, FieldEnd.newline, rest) := by
  by_cases hq : fieldNeedsQuote s = true
  · simp only [encodeFieldC, hq, if_pos]
    rw [List.cons_append, List.append_assoc, List.singleton_append]
    simp [parseOneField, pQB_escQ s [] ('\r' :: '\n' :: rest) rfl]
  · have hq2 : fieldNeedsQuote s = false := by simpa using hq
    simp only [encodeFieldC, hq2, Bool.false_eq_true, if_false]
    cases s with
    | nil => simp [parseOneField, pRaw]
    | cons c s2 =>
      have hq3 := hq2
      simp only [fieldNeedsQuote, List.any_cons, Bool.or_eq_false_iff,
        isCsvSpecial, beq_eq_false_iff_ne, ne_eq] at hq3
      have hcq : ¬(c = '"') := hq3.1.1.1.2
      rw [List.cons_append]
      simp only [parseOneField, hcq, if_false]
      rw [← List.cons_append, pRaw_newline (c :: s2) [] rest hq2]
      simp

/-- One encoded record followed by anything parses back to its three
fields, consuming exactly through its terminator. -/
theorem parseRecord_enc (r : Row) (rest : List Char) :
    parseOneRecord (encodeRowC r ++ rest) =
      some ((r.test.data, r.result.data, r.status.data), rest) := by
  unfold encodeRowC parseOneRecord
  simp only [List.append_assoc, List.cons_append, List.nil_append]
  simp only [parseField_comma, parseField_newline]

/-- Appending a continuation to an encoded record never yields the
empty character list. -/
theorem encodeRowC_append_isEmpty (r : Row) (t : List Char) :
    (encodeRowC r ++ t).isEmpty = false := by
  unfold encodeRowC
  cases hE : encodeFieldC r.test.data with
  | nil => simp
  | cons c cs => simp

/-- With fuel at least the record count, the concatenated encoded
records parse back exactly. -/
theorem parseRecords_enc : ∀ (rows : List Row) (fuel : Nat),
    rows.length ≤ fuel →
    parseRecords fuel (encodeRecords rows) =
      some (rows.map fun r => (r.test.data, r.result.data, r.status.data)) := by
  intro rows
  induction rows with
  | nil =>
    intro fuel h
    cases fuel with
    | zero => simp [parseRecords, encodeRecords]
    | succ n => simp [parseRecords, encodeRecords]
  | cons r rows ih =>
    intro fuel h
    cases fuel with
    | zero => simp at h
    | succ n =>
      have hle : rows.length ≤ n := by
        simp only [List.length_cons] at h
        omega
      have hrec : encodeRecords (r :: rows) = encodeRowC r ++ encodeRecords rows := rfl
      rw [hrec]
      simp [parseRecords, encodeRowC_append_isEmpty, parseRecord_enc, ih n hle]

/-- Each encoded record contributes at least one character, so the file
is at least as long as its record count. -/
theorem encodeRecords_len (rows : List Row) :
    rows.length ≤ (encodeRecords rows).length := by
  induction rows with
  | nil => simp [encodeRecords]
  | cons r rows ih =>
    have h2 : 2 ≤ (encodeRowC r).length := by
      simp [encodeRowC, List.length_append]
      omega
    have hrec : encodeRecords (r :: rows) = encodeRowC r ++ encodeRecords rows := rfl
    rw [hrec]
    simp only [List.length_cons, List.length_append]
    omega

/-- C9: parsing the saved report file back reconstructs the header and
every `(Test, Result, Status)` row exactly as the Reporter assigned
them — in particular the same sequence of `(test, status)` pairs. -/
theorem csv_round_trip (report : Report) :
    parseCSV (savedFileString report) =
      some ((headerRow :: csv_data report).map fun r =>
        (r.test, r.result, r.status)) := by
  unfold parseCSV savedFileString
  have hmkl : (String.mk (encodeRecords (headerRow :: csv_data report))).length
      = (encodeRecords (headerRow :: csv_data report)).length := rfl
  have hlen : (headerRow :: csv_data report).length ≤
      (String.mk (encodeRecords (headerRow :: csv_data report))).length + 1 := by
    have := encodeRecords_len (headerRow :: csv_data report)
    omega
  rw [show (String.mk (encodeRecords (headerRow :: csv_data report))).data
      = encodeRecords (headerRow :: csv_data report) from rfl]
  rw [parseRecords_enc _ _ hlen]
  simp only [List.map_map]
  rfl

end StripeChecker

